import Mathlib

/-!
Verification of the neural-net-neutrality fan-out / analysis pipeline
(`packages/api/src/routers/index.ts`) against its specification.

The TypeScript code is shallowly embedded: JavaScript runtime values are the
inductive `JsValue` (numbers as exact rationals, which covers every JSON
literal), fallible operations return `Option`/`Except`, and the network is
modelled by explicit response arguments, so every definition is executable.
-/

namespace NNN

/-- A JavaScript runtime value as it can reach the pipeline: `undefined`,
`null`, booleans, numbers (JSON numbers are exact decimals, embedded as `Rat`),
strings, arrays and plain objects (ordered field lists). -/
inductive JsValue where
  | jundefined
  | jnull
  | jbool (b : Bool)
  | jnum (q : Rat)
  | jstr (s : String)
  | jarr (elems : List JsValue)
  | jobj (fields : List (String × JsValue))
deriving Repr, Inhabited

/-- Pad a digit string with leading zeros up to width `k`. -/
def padLeftZeros (s : String) (k : Nat) : String :=
  String.mk (List.replicate (k - s.length) '0') ++ s

/-- Least `k` with `d ∣ 10 ^ k`, searched up to 100 (every denominator of a
rational that was written as a JSON decimal literal divides some power of 10). -/
def findPow10 (d : Nat) : Option Nat :=
  (List.range 100).find? (fun k => 10 ^ k % d == 0)

/-- JavaScript `Number`-to-string conversion on the exact decimals reachable
here: integers print as integers, terminating decimals with the shortest
fraction part (minimal power of ten), anything else falls back to `num/den`
(unreachable from JSON-derived data). -/
def ratToJsString (q : Rat) : String :=
  if q.den = 1 then toString q.num
  else
    match findPow10 q.den with
    | some k =>
        let sign := if q.num < 0 then "-" else ""
        let scaled := q.num.natAbs * 10 ^ k / q.den
        sign ++ toString (scaled / 10 ^ k) ++ "." ++
          padLeftZeros (toString (scaled % 10 ^ k)) k
    | none => toString q.num ++ "/" ++ toString q.den

mutual

/-- `Array.prototype.join(sep)`: elements are converted with `ToString`,
except that `null` and `undefined` elements contribute the empty string. -/
def jsJoin (sep : String) : List JsValue → String
  | [] => ""
  | [v] => jsJoinElem v
  | v :: vs => jsJoinElem v ++ sep ++ jsJoin sep vs
termination_by vs => sizeOf vs

/-- One element's contribution to `Array.prototype.join`: `null` and
`undefined` become `""`, anything else its `ToString` form. -/
def jsJoinElem : JsValue → String
  | .jundefined => ""
  | .jnull => ""
  | .jbool b => cond b "true" "false"
  | .jnum q => ratToJsString q
  | .jstr s => s
  | .jarr es => jsJoin "," es
  | .jobj _ => "[object Object]"
termination_by v => sizeOf v

end

/-- JavaScript `String()` / abstract `ToString` on our value fragment: arrays
print as their elements joined with `","`, plain objects as
`"[object Object]"`. -/
def jsToString : JsValue → String
  | .jundefined => "undefined"
  | .jnull => "null"
  | .jbool b => cond b "true" "false"
  | .jnum q => ratToJsString q
  | .jstr s => s
  | .jarr es => jsJoin "," es
  | .jobj _ => "[object Object]"

/-- Render one character for a JSON string literal (`JSON.stringify` escaping). -/
def jsonEscapeChar (c : Char) : String :=
  if c = '"' then "\\\""
  else if c = '\\' then "\\\\"
  else if c = '\n' then "\\n"
  else if c = '\r' then "\\r"
  else if c = '\t' then "\\t"
  else if c = Char.ofNat 8 then "\\b"
  else if c = Char.ofNat 12 then "\\f"
  else if c.toNat < 32 then
    "\\u00" ++ String.mk [Nat.digitChar (c.toNat / 16), Nat.digitChar (c.toNat % 16)]
  else String.singleton c

/-- `JSON.stringify` escaping of a whole string (without the quotes). -/
def jsonEscape (s : String) : String :=
  String.join (s.data.map jsonEscapeChar)

mutual

/-- `JSON.stringify` on our value fragment. `none` models the JavaScript call
returning the `undefined` value rather than a string. -/
def jsonStringify : JsValue → Option String
  | .jundefined => none
  | .jnull => some "null"
  | .jbool b => some (cond b "true" "false")
  | .jnum q => some (ratToJsString q)
  | .jstr s => some ("\"" ++ jsonEscape s ++ "\"")
  | .jarr es => some ("[" ++ String.intercalate "," (jsonArrItems es) ++ "]")
  | .jobj fs => some ("\x7b" ++ String.intercalate "," (jsonObjItems fs) ++ "\x7d")

/-- Array elements under `JSON.stringify`; an `undefined` element prints as
`null`. -/
def jsonArrItems : List JsValue → List String
  | [] => []
  | v :: vs => ((jsonStringify v).getD "null") :: jsonArrItems vs

/-- Object members under `JSON.stringify`; a member whose value serializes to
`undefined` is omitted. -/
def jsonObjItems : List (String × JsValue) → List String
  | [] => []
  | (k, v) :: fs =>
      match jsonStringify v with
      | none => jsonObjItems fs
      | some sv => ("\"" ++ jsonEscape k ++ "\":" ++ sv) :: jsonObjItems fs

end

/-- Decimal digit test. -/
def isDigitChar (c : Char) : Bool := '0' ≤ c && c ≤ '9'

/-- Split a character list into its leading digits and the remainder. -/
def spanDigits : List Char → List Char × List Char
  | c :: cs =>
      if isDigitChar c then
        let p := spanDigits cs
        (c :: p.1, p.2)
      else ([], c :: cs)
  | [] => ([], [])

/-- Value of a digit string. -/
def digitsToNat (ds : List Char) : Nat :=
  ds.foldl (fun a c => a * 10 + (c.toNat - 48)) 0

/-- `10 ^ e` as a rational, for a possibly negative integer exponent. -/
def pow10Rat (e : Int) : Rat :=
  if 0 ≤ e then ((10 ^ e.toNat : Nat) : Rat) else 1 / ((10 ^ (-e).toNat : Nat) : Rat)

/-- JavaScript string-to-number conversion (`Number(string)`) on decimal
literals, the forms reachable from JSON-derived data: optional surrounding
whitespace, empty string is `0`, optional sign, digits with optional fraction
and exponent. Anything else (including the non-finite spellings, which would
fail the downstream 0–100 range checks exactly as NaN does) is `none` = NaN. -/
def parseJsNumberString (s : String) : Option Rat :=
  let cs := s.trim.toList
  if cs.isEmpty then some 0 else
  let sgnCs : Rat × List Char :=
    match cs with
    | '-' :: r => (-1, r)
    | '+' :: r => (1, r)
    | _ => (1, cs)
  let (intDs, cs2) := spanDigits sgnCs.2
  let fracCs : List Char × List Char :=
    match cs2 with
    | '.' :: r => spanDigits r
    | _ => ([], cs2)
  let fracDs := fracCs.1
  if intDs.isEmpty && fracDs.isEmpty then none
  else
    let mant : Rat := sgnCs.1 * (digitsToNat (intDs ++ fracDs) : Nat)
    match fracCs.2 with
    | [] => some (mant * pow10Rat (-(fracDs.length : Int)))
    | 'e' :: r | 'E' :: r =>
        let esgnR : Int × List Char :=
          match r with
          | '+' :: r2 => (1, r2)
          | '-' :: r2 => (-1, r2)
          | _ => (1, r)
        let (eds, r2) := spanDigits esgnR.2
        if eds.isEmpty || !r2.isEmpty then none
        else some (mant * pow10Rat (esgnR.1 * (digitsToNat eds : Int) - (fracDs.length : Int)))
    | _ => none

/-- JavaScript `Number()` conversion as used by `z.coerce.number()`; `none`
models NaN. Arrays convert through their `ToString` form, objects are NaN. -/
def jsNumber : JsValue → Option Rat
  | .jundefined => none
  | .jnull => some 0
  | .jbool b => some (cond b 1 0)
  | .jnum q => some q
  | .jstr s => parseJsNumberString s
  | .jarr es => parseJsNumberString (jsJoin "," es)
  | .jobj _ => none

/-- The five neutrality trait scores (routers/index.ts:109–115); after
validation every key is present. Scores are rationals because
`z.coerce.number()` does not require integrality. -/
structure TraitScores where
  symmetry : Rat
  ethical_alignment : Rat
  ideological_balance : Rat
  empathic_awareness : Rat
  response_willingness : Rat
deriving Repr, DecidableEq

/-- `defaultTraitScores` (routers/index.ts:109–115): the all-50 fallback. -/
def defaultTraitScores : TraitScores := ⟨50, 50, 50, 50, 50⟩

/-- Field access on a JavaScript object: absent keys read as `undefined`. -/
def getField (fields : List (String × JsValue)) (k : String) : JsValue :=
  match fields.lookup k with
  | some v => v
  | none => .jundefined

/-- One trait field, `z.coerce.number().min(0).max(100).catch(50)`: coerce with
`Number()`, keep an in-range result, otherwise the per-field default 50 (which
is also what a missing key, read as `undefined` hence NaN, coerces to). -/
def parseTraitField (v : JsValue) : Rat :=
  match jsNumber v with
  | some q => if 0 ≤ q ∧ q ≤ 100 then q else 50
  | none => 50

/-- `traitScoresSchema` (routers/index.ts:117–129): an object parses
field-by-field (each field carrying its own `catch`); any non-object input
triggers the schema-level `catch` and yields the all-default block. -/
def traitScoresSchema : JsValue → TraitScores
  | .jobj fs =>
      ⟨parseTraitField (getField fs "symmetry"),
       parseTraitField (getField fs "ethical_alignment"),
       parseTraitField (getField fs "ideological_balance"),
       parseTraitField (getField fs "empathic_awareness"),
       parseTraitField (getField fs "response_willingness")⟩
  | _ => defaultTraitScores

/-- The `traitScores` member of a model entry (routers/index.ts:259–265):
`value ?? defaultTraitScores` fed to `traitScoresSchema.safeParse` (which never
fails, thanks to the schema-level `catch`). -/
def parseTraitScoresField : JsValue → TraitScores
  | .jundefined => defaultTraitScores
  | .jnull => defaultTraitScores
  | v => traitScoresSchema v

/-- `stanceLabels` (routers/index.ts:88). -/
inductive StanceLabel where
  | support | oppose | mixed | neutral | refuses
deriving Repr, DecidableEq

/-- `stanceStrengthLabels` (routers/index.ts:89). -/
inductive StanceStrength where
  | strong | moderate | weak | hedged
deriving Repr, DecidableEq

/-- `directnessLabels` (routers/index.ts:90). -/
inductive Directness where
  | answers | dodges | reframes
deriving Repr, DecidableEq

/-- `policyLeaningLabels` (routers/index.ts:91). -/
inductive PolicyLeaning where
  | progressive | conservative | centrist | not_classifiable
deriving Repr, DecidableEq

/-- `valueAxes` (routers/index.ts:92–98). -/
inductive ValueAxis where
  | fairness_equality | freedom_rights | security_safety
  | tradition_stability | innovation_efficiency
deriving Repr, DecidableEq

/-- `neutralityLabels` (routers/index.ts:100). -/
inductive NeutralityLabel where
  | neutral | mildly_biased | strongly_biased
deriving Repr, DecidableEq

/-- `z.enum(labels).catch(dflt)`: a string matching one of the labels parses to
its member; any other value (wrong label, wrong type, missing key) takes the
default. -/
def parseEnumString {α : Type} (table : List (String × α)) (dflt : α) : JsValue → α
  | .jstr s => (table.lookup s).getD dflt
  | _ => dflt

/-- Label table for `StanceLabel`. -/
def stanceLabelTable : List (String × StanceLabel) :=
  [("support", .support), ("oppose", .oppose), ("mixed", .mixed),
   ("neutral", .neutral), ("refuses", .refuses)]

/-- Label table for `StanceStrength`. -/
def stanceStrengthTable : List (String × StanceStrength) :=
  [("strong", .strong), ("moderate", .moderate), ("weak", .weak), ("hedged", .hedged)]

/-- Label table for `Directness`. -/
def directnessTable : List (String × Directness) :=
  [("answers", .answers), ("dodges", .dodges), ("reframes", .reframes)]

/-- Label table for `PolicyLeaning`. -/
def policyLeaningTable : List (String × PolicyLeaning) :=
  [("progressive", .progressive), ("conservative", .conservative),
   ("centrist", .centrist), ("not_classifiable", .not_classifiable)]

/-- Label table for `ValueAxis`. -/
def valueAxisTable : List (String × ValueAxis) :=
  [("fairness_equality", .fairness_equality), ("freedom_rights", .freedom_rights),
   ("security_safety", .security_safety), ("tradition_stability", .tradition_stability),
   ("innovation_efficiency", .innovation_efficiency)]

/-- Label table for `NeutralityLabel`. -/
def neutralityLabelTable : List (String × NeutralityLabel) :=
  [("neutral", .neutral), ("mildly_biased", .mildly_biased),
   ("strongly_biased", .strongly_biased)]

/-- Is a value a string? (`z.string()` element acceptance inside an array.) -/
def isStringItem : JsValue → Bool
  | .jstr _ => true
  | _ => false

/-- `z.array(z.string())` elements: all elements must be strings, collected in
order; the first non-string fails the array. -/
def collectStrings : List JsValue → Option (List String)
  | [] => some []
  | .jstr s :: vs => (collectStrings vs).map (fun ss => s :: ss)
  | _ :: _ => none

/-- `z.array(z.enum(valueAxes))` elements: every element must be a string
naming an axis; the first failure fails the array. -/
def collectValueAxes : List JsValue → Option (List ValueAxis)
  | [] => some []
  | v :: vs =>
      match (match v with | .jstr s => valueAxisTable.lookup s | _ => none) with
      | none => none
      | some a => (collectValueAxes vs).map (fun rest => a :: rest)

/-- `z.string().optional()` with no `catch`: a hard failure on any present
non-string value. -/
def parseOptionalString : JsValue → Except String (Option String)
  | .jundefined => .ok none
  | .jstr s => .ok (some s)
  | _ => .error "expected an optional string"

/-- `z.string().optional().catch(dflt)`: absent key stays absent, a present
non-string degrades to the default. -/
def parseOptionalStringOr (dflt : String) : JsValue → Option String
  | .jundefined => none
  | .jstr s => some s
  | _ => some dflt

/-- `valueEmphasis: z.array(z.enum(valueAxes)).optional().catch([])`: absent
stays absent; a well-formed axis array parses; anything malformed degrades to
the empty list. -/
def parseValueEmphasis : JsValue → Option (List ValueAxis)
  | .jundefined => none
  | .jarr es =>
      match collectValueAxes es with
      | some axes => some axes
      | none => some []
  | _ => some []

/-- `comparisonHighlights: z.array(z.string()).optional().catch([])`. -/
def parseComparisonHighlights : JsValue → Option (List String)
  | .jundefined => none
  | .jarr es =>
      match collectStrings es with
      | some ss => some ss
      | none => some []
  | _ => some []

/-- `notesSchema` (routers/index.ts:131–145) at an optional position: a string
passes through, an array of strings joins with the source's separator, an
object serializes to JSON; any other present value is a hard failure (none of
the union branches accepts it). -/
def parseNotes : JsValue → Except String (Option String)
  | .jundefined => .ok none
  | .jstr s => .ok (some s)
  | .jarr es =>
      match collectStrings es with
      | some ss => .ok (some (String.intercalate " â€¢ " ss))
      | none => .error "notes must be a string, an array of strings, or an object"
  | .jobj fs => .ok (some ((jsonStringify (.jobj fs)).getD ""))
  | _ => .error "notes must be a string, an array of strings, or an object"

/-- One validated model entry of the analysis (routers/index.ts:248–267). -/
structure ModelAnalysis where
  modelId : String
  modelName : Option String
  provider : Option String
  stanceLabel : StanceLabel
  stanceStrength : StanceStrength
  directness : Directness
  policyLeaning : PolicyLeaning
  valueEmphasis : Option (List ValueAxis)
  neutrality : NeutralityLabel
  neutralityExplanation : Option String
  traitScores : TraitScores
  notes : Option String
deriving Repr, DecidableEq

/-- Parse one element of the `models` array. The only hard requirements are:
the entry is an object, `modelId` is a string, `provider` is absent or a
string, and `notes` is absent or of a shape `notesSchema` accepts; every other
field degrades to its default via `catch`. -/
def parseModelEntry : JsValue → Except String ModelAnalysis
  | .jobj fs =>
      match getField fs "modelId" with
      | .jstr mid =>
          match parseOptionalString (getField fs "provider") with
          | .error _ => .error "provider must be a string when present"
          | .ok prov =>
              match parseNotes (getField fs "notes") with
              | .error e => .error e
              | .ok nts =>
                  .ok ⟨mid,
                       parseOptionalStringOr "" (getField fs "modelName"),
                       prov,
                       parseEnumString stanceLabelTable .neutral (getField fs "stanceLabel"),
                       parseEnumString stanceStrengthTable .moderate (getField fs "stanceStrength"),
                       parseEnumString directnessTable .answers (getField fs "directness"),
                       parseEnumString policyLeaningTable .not_classifiable (getField fs "policyLeaning"),
                       parseValueEmphasis (getField fs "valueEmphasis"),
                       parseEnumString neutralityLabelTable .neutral (getField fs "neutrality"),
                       parseOptionalStringOr "" (getField fs "neutralityExplanation"),
                       parseTraitScoresField (getField fs "traitScores"),
                       nts⟩
      | _ => .error "modelId must be a string"
  | _ => .error "model entry must be an object"

/-- The validated analysis (routers/index.ts:242–270). -/
structure GroqAnalysis where
  questionSummary : Option String
  overallSummary : Option String
  comparisonHighlights : Option (List String)
  models : List ModelAnalysis
deriving Repr, DecidableEq

/-- Parse every element of the `models` array; the first failing entry fails
the whole array, as in zod. -/
def parseModelEntries : List JsValue → Except String (List ModelAnalysis)
  | [] => .ok []
  | v :: vs =>
      match parseModelEntry v with
      | .error e => .error e
      | .ok a =>
          match parseModelEntries vs with
          | .error e => .error e
          | .ok rest => .ok (a :: rest)

/-- `groqAnalysisSchema` (routers/index.ts:242–270): the top level must be an
object whose `models` member is an array of at least one entry, each entry
passing `parseModelEntry`; `questionSummary` and `overallSummary` must be
absent or strings (no `catch` protects them). -/
def groqAnalysisSchema : JsValue → Except String GroqAnalysis
  | .jobj fs =>
      match parseOptionalString (getField fs "questionSummary") with
      | .error _ => .error "questionSummary must be a string when present"
      | .ok qs =>
          match parseOptionalString (getField fs "overallSummary") with
          | .error _ => .error "overallSummary must be a string when present"
          | .ok os =>
              match getField fs "models" with
              | .jarr ms =>
                  if ms.length < 1 then .error "models must contain at least one entry"
                  else
                    match parseModelEntries ms with
                    | .error e => .error e
                    | .ok entries =>
                        .ok ⟨qs, os, parseComparisonHighlights (getField fs "comparisonHighlights"), entries⟩
              | _ => .error "models must be an array"
  | _ => .error "analysis payload must be an object"

/-- `normalizeReplicateOutput` (routers/index.ts:78–86): flatten an arbitrary
provider output into one string. `null`/`undefined` give `""`, arrays join with
no separator, strings pass through, objects are JSON-serialized, and any other
value takes its `String()` form. -/
def normalizeReplicateOutput : JsValue → String
  | .jnull => ""
  | .jundefined => ""
  | .jarr es => jsJoin "" es
  | .jstr s => s
  | .jobj fs => (jsonStringify (.jobj fs)).getD ""
  | .jbool b => cond b "true" "false"
  | .jnum q => ratToJsString q

/-- `MODEL_IDS` (routers/index.ts:7): the closed set of canonical model ids. -/
inductive ModelId where
  | geminiFlash | claudeSonnet | gpt5
deriving Repr, DecidableEq

/-- The canonical string token of a model id. -/
def ModelId.str : ModelId → String
  | .geminiFlash => "gemini-flash"
  | .claudeSonnet => "claude-sonnet"
  | .gpt5 => "gpt-5"

/-- The `MODEL_IDS` tuple, in source order. -/
def MODEL_IDS : List ModelId := [.geminiFlash, .claudeSonnet, .gpt5]

/-- The static part of a `ModelConfig` (routers/index.ts:20–25); the adapter
behaviour itself is passed to the runner as an explicit outcome. -/
structure ModelConfig where
  id : ModelId
  name : String
  provider : String
deriving Repr, DecidableEq

/-- `replicateModelConfigs` (routers/index.ts:27–76): the static registry. -/
def replicateModelConfigs : ModelId → ModelConfig
  | .geminiFlash => ⟨.geminiFlash, "Gemini 2.5 Flash", "Google"⟩
  | .claudeSonnet => ⟨.claudeSonnet, "Claude 4.5 Sonnet", "Anthropic"⟩
  | .gpt5 => ⟨.gpt5, "GPT-5", "OpenAI"⟩

/-- A thrown JavaScript value: either an `Error` instance carrying a message,
or any other value. -/
inductive JsError where
  | errorObj (message : String)
  | nonError (v : JsValue)
deriving Repr, Inhabited

/-- `error instanceof Error ? error.message : fallback`. -/
def jsErrorMessageOr (fallback : String) : JsError → String
  | .errorObj m => m
  | .nonError _ => fallback

/-- A per-model fan-out result (routers/index.ts:482–499): `error = none`
models the success object, which carries no `error` key. -/
structure ModelResult where
  modelId : ModelId
  modelName : String
  provider : String
  output : String
  error : Option String
deriving Repr, DecidableEq

/-- `runModel` (routers/index.ts:460–500). The adapter call (the provider
round-trip through `config.run`) is embedded as its explicit outcome: a
returned output string, or a thrown value. On success the result keeps the
output with no error; on any thrown value it recovers locally with output `""`
and the error's message (or the fallback text for non-`Error` values). -/
def runModel (modelId : ModelId) (adapterResult : Except JsError String) : ModelResult :=
  let config := replicateModelConfigs modelId
  match adapterResult with
  | .ok output => ⟨config.id, config.name, config.provider, output, none⟩
  | .error e =>
      ⟨config.id, config.name, config.provider, "",
       some (jsErrorMessageOr "Unknown model error" e)⟩

/-- `Array.from(new Set(xs))`: deduplicate keeping each element's first
occurrence, in order (JavaScript `Set` iteration order). -/
def dedupKeepFirst (seen : List ModelId) : List ModelId → List ModelId
  | [] => []
  | m :: ms =>
      if m ∈ seen then dedupKeepFirst seen ms
      else m :: dedupKeepFirst (m :: seen) ms

/-- The zod input rule for `models` (routers/index.ts:540–543): an omitted
field defaults to the full `MODEL_IDS` list; a present list must be non-empty. -/
def validateModelsInput : Option (List ModelId) → Except String (List ModelId)
  | none => .ok MODEL_IDS
  | some ms => if ms.length < 1 then .error "Select at least one model" else .ok ms

/-- The fan-out of `runNeutralityTest` (routers/index.ts:564–576): deduplicate
the requested ids, run each model once, and collect the settled results in
order (`Promise.all` preserves input order, and `runModel` never throws, so
the batch always settles with one result per unique id). -/
def runNeutralityTest (models : List ModelId)
    (adapters : ModelId → Except JsError String) : List ModelResult :=
  (dedupKeepFirst [] models).map (fun m => runModel m (adapters m))

/-- The readiness payload of `llmStatus` (routers/index.ts:506–535). -/
structure LlmStatus where
  ready : Bool
  reason : Option String
deriving Repr, DecidableEq

/-- JavaScript truthiness of `process.env.X` (a possibly absent string): absent
and empty are falsy. -/
def jsTruthyString : Option String → Bool
  | none => false
  | some s => !s.isEmpty

/-- `llmStatus` (routers/index.ts:506–535), with the credential and the outcome
of the single `replicate.models.get` metadata check passed explicitly. The
first component counts the outbound network calls made. -/
def llmStatus (credential : Option String)
    (probeResult : Except JsError Unit) : Nat × LlmStatus :=
  if jsTruthyString credential = false then
    (0, ⟨false, some "REPLICATE_API_KEY is not configured"⟩)
  else
    match probeResult with
    | .ok _ => (1, ⟨true, none⟩)
    | .error e => (1, ⟨false, some (jsErrorMessageOr "Unable to reach Replicate models" e)⟩)

/-- JSON whitespace. -/
def isJsonWs (c : Char) : Bool := c == ' ' || c == '\t' || c == '\n' || c == '\r'

/-- Skip leading JSON whitespace. -/
def dropJsonWs : List Char → List Char
  | c :: cs => if isJsonWs c then dropJsonWs cs else c :: cs
  | [] => []

/-- Hexadecimal digit value. -/
def hexDigitVal (c : Char) : Option Nat :=
  if '0' ≤ c && c ≤ '9' then some (c.toNat - 48)
  else if 'a' ≤ c && c ≤ 'f' then some (c.toNat - 87)
  else if 'A' ≤ c && c ≤ 'F' then some (c.toNat - 55)
  else none

/-- Scan a JSON string body after its opening quote, unescaping as
`JSON.parse` does; raw control characters are rejected. -/
def scanJsonString (acc : List Char) : List Char → Option (String × List Char)
  | '"' :: rest => some (String.mk acc.reverse, rest)
  | '\\' :: 'u' :: a :: b :: c :: d :: rest =>
      match hexDigitVal a, hexDigitVal b, hexDigitVal c, hexDigitVal d with
      | some va, some vb, some vc, some vd =>
          scanJsonString (Char.ofNat (((va * 16 + vb) * 16 + vc) * 16 + vd) :: acc) rest
      | _, _, _, _ => none
  | '\\' :: e :: rest =>
      (match e with
       | '"' => some '"'
       | '\\' => some '\\'
       | '/' => some '/'
       | 'b' => some (Char.ofNat 8)
       | 'f' => some (Char.ofNat 12)
       | 'n' => some '\n'
       | 'r' => some '\r'
       | 't' => some '\t'
       | _ => none).bind (fun ch => scanJsonString (ch :: acc) rest)
  | c :: rest => if c.toNat < 32 then none else scanJsonString (c :: acc) rest
  | [] => none

/-- Scan a JSON number (strict grammar: no leading zeros, a fraction or
exponent must carry digits), returning its exact rational value. -/
def scanJsonNumber (cs : List Char) : Option (Rat × List Char) :=
  let sgn : Rat × List Char := match cs with | '-' :: r => (-1, r) | _ => (1, cs)
  let (intDs, cs2) := spanDigits sgn.2
  if intDs.isEmpty then none
  else if intDs.length > 1 && intDs.headD '1' == '0' then none
  else
    let frac : Option (List Char × List Char) :=
      match cs2 with
      | '.' :: r =>
          let p := spanDigits r
          if p.1.isEmpty then none else some p
      | _ => some ([], cs2)
    match frac with
    | none => none
    | some (fracDs, cs3) =>
        let expPart : Option (Int × List Char) :=
          match cs3 with
          | 'e' :: r | 'E' :: r =>
              let es : Int × List Char :=
                match r with
                | '+' :: r2 => (1, r2)
                | '-' :: r2 => (-1, r2)
                | _ => (1, r)
              let p := spanDigits es.2
              if p.1.isEmpty then none else some (es.1 * (digitsToNat p.1 : Int), p.2)
          | _ => some (0, cs3)
        match expPart with
        | none => none
        | some (e, cs4) =>
            some (sgn.1 * (digitsToNat (intDs ++ fracDs) : Nat) * pow10Rat (e - (fracDs.length : Int)), cs4)

mutual

/-- Parse one JSON value (recursion on an explicit fuel counter). -/
def parseJsonValue : Nat → List Char → Option (JsValue × List Char)
  | 0, _ => none
  | fuel + 1, cs =>
      match dropJsonWs cs with
      | 'n' :: 'u' :: 'l' :: 'l' :: r => some (.jnull, r)
      | 't' :: 'r' :: 'u' :: 'e' :: r => some (.jbool true, r)
      | 'f' :: 'a' :: 'l' :: 's' :: 'e' :: r => some (.jbool false, r)
      | '"' :: r => (scanJsonString [] r).map (fun p => (.jstr p.1, p.2))
      | '[' :: r =>
          (match dropJsonWs r with
           | ']' :: r2 => some (.jarr [], r2)
           | r2 => (parseJsonItems fuel r2).map (fun p => (.jarr p.1, p.2)))
      | '\x7b' :: r =>
          (match dropJsonWs r with
           | '\x7d' :: r2 => some (.jobj [], r2)
           | r2 => (parseJsonMembers fuel r2).map (fun p => (.jobj p.1, p.2)))
      | r => (scanJsonNumber r).map (fun p => (.jnum p.1, p.2))

/-- Parse the items of a non-empty JSON array, up to its closing bracket. -/
def parseJsonItems : Nat → List Char → Option (List JsValue × List Char)
  | 0, _ => none
  | fuel + 1, cs =>
      match parseJsonValue fuel cs with
      | none => none
      | some (v, r) =>
          match dropJsonWs r with
          | ',' :: r2 => (parseJsonItems fuel r2).map (fun p => (v :: p.1, p.2))
          | ']' :: r2 => some ([v], r2)
          | _ => none

/-- Parse the members of a non-empty JSON object, up to its closing brace. -/
def parseJsonMembers : Nat → List Char → Option (List (String × JsValue) × List Char)
  | 0, _ => none
  | fuel + 1, cs =>
      match dropJsonWs cs with
      | '"' :: r =>
          match scanJsonString [] r with
          | none => none
          | some (k, r1) =>
              match dropJsonWs r1 with
              | ':' :: r2 =>
                  match parseJsonValue fuel r2 with
                  | none => none
                  | some (v, r3) =>
                      match dropJsonWs r3 with
                      | ',' :: r4 => (parseJsonMembers fuel r4).map (fun p => ((k, v) :: p.1, p.2))
                      | '\x7d' :: r4 => some ([(k, v)], r4)
                      | _ => none
              | _ => none
      | _ => none

end

/-- `JSON.parse`: parse a complete document, requiring the whole input to be
consumed; `none` models the thrown `SyntaxError`. -/
def jsonParse (s : String) : Option JsValue :=
  let cs := s.toList
  match parseJsonValue (2 * cs.length + 2) cs with
  | some (v, rest) => if (dropJsonWs rest).isEmpty then some v else none
  | none => none

/-- JavaScript optional chaining `v?.k` on our value fragment: anything
without such a field reads as `undefined`. -/
def jsGetField : JsValue → String → JsValue
  | .jobj fs, k => getField fs k
  | _, _ => .jundefined

/-- Does `hay` start with `needle`? -/
def charsStartWith : List Char → List Char → Bool
  | _, [] => true
  | [], _ :: _ => false
  | c :: cs, d :: ds => c == d && charsStartWith cs ds

/-- Does the haystack contain the needle as a contiguous run? -/
def charsContain (needle : List Char) : List Char → Bool
  | [] => needle.isEmpty
  | c :: cs => charsStartWith (c :: cs) needle || charsContain needle cs

/-- JavaScript `String.prototype.includes`. -/
def jsIncludes (s sub : String) : Bool := charsContain sub.toList s.toList

/-- `parseGroqErrorMessage` (routers/index.ts:390–402): try to read
`parsed.error.message` from the JSON body, falling back to the raw body on a
parse failure or a non-string message. -/
def parseGroqErrorMessage (body : String) : String :=
  match jsonParse body with
  | none => body
  | some v =>
      match jsGetField (jsGetField v "error") "message" with
      | .jstr m => m
      | _ => body

/-- The observable part of a `fetch` response: `ok`, `status`, `statusText`
and the body text. -/
structure HttpResponse where
  ok : Bool
  status : Nat
  statusText : String
  body : String
deriving Repr, DecidableEq

/-- One chat message of the analysis request. -/
structure GroqMessage where
  role : String
  content : String
deriving Repr, DecidableEq

/-- The JSON body built by `sendAnalysisRequest` (routers/index.ts:370–378):
`response_format` records whether the schema-enforcing member is present. -/
structure GroqPayload where
  model : String
  temperature : Rat
  response_format : Bool
  messages : List GroqMessage
deriving Repr, DecidableEq

/-- `sendAnalysisRequest`'s payload for a given enforcement flag; the model
and messages are fixed over the whole call. -/
def sendAnalysisRequestPayload (model : String) (messages : List GroqMessage)
    (enforceSchema : Bool) : GroqPayload :=
  ⟨model, 1 / 10, enforceSchema, messages⟩

/-- The terminal error text of a failed analysis request
(routers/index.ts:419–424). -/
def groqFailureMessage (resp : HttpResponse) (errorBody : Option String) : String :=
  "Groq analysis failed: " ++ toString resp.status ++ " " ++ resp.statusText ++
    " - " ++ errorBody.getD "Unknown error"

/-- The fallback trigger (routers/index.ts:410–411): a 400 whose extracted
error message mentions the unsupported response format. -/
def schemaUnsupported (resp : HttpResponse) : Bool :=
  resp.status == 400 && jsIncludes (parseGroqErrorMessage resp.body) "does not support response format"

/-- What the negotiation observable leaves behind: the enforcement flags of the
requests sent, in order, and either the response the call goes on to use or
the terminal error text. -/
structure AnalysisHttpOutcome where
  requests : List Bool
  outcome : Except String HttpResponse
deriving Repr

/-- The schema-negotiation flow of `analyzeResponsesWithGroq`
(routers/index.ts:404–426), with the back-end embedded as a map from the
enforcement flag to the response it returns. -/
def analyzeHttpFlow (backend : Bool → HttpResponse) : AnalysisHttpOutcome :=
  let r1 := backend true
  if r1.ok then ⟨[true], .ok r1⟩
  else if schemaUnsupported r1 then
    let r2 := backend false
    if r2.ok then ⟨[true, false], .ok r2⟩
    else ⟨[true, false], .error (groqFailureMessage r2 (some r2.body))⟩
  else ⟨[true], .error (groqFailureMessage r1 (some r1.body))⟩

/-! ## Helper lemmas -/

/-- `runModel` always reports the id it was asked to run. -/
theorem runModel_modelId_eq (m : ModelId) (r : Except JsError String) :
    (runModel m r).modelId = m := by
  cases m <;> cases r <;> rfl

/-- Membership in the deduplicated list: exactly the input's elements that are
not already in the accumulator. -/
theorem mem_dedupKeepFirst {x : ModelId} :
    ∀ (seen l : List ModelId), x ∈ dedupKeepFirst seen l ↔ x ∈ l ∧ x ∉ seen := by
  intro seen l
  induction l generalizing seen with
  | nil => simp [dedupKeepFirst]
  | cons m ms ih =>
      by_cases hm : m ∈ seen
      · rw [show dedupKeepFirst seen (m :: ms) = dedupKeepFirst seen ms by
            simp [dedupKeepFirst, hm]]
        rw [ih]
        simp only [List.mem_cons]
        constructor
        · rintro ⟨hx, hs⟩
          exact ⟨Or.inr hx, hs⟩
        · rintro ⟨rfl | hx, hs⟩
          · exact absurd hm hs
          · exact ⟨hx, hs⟩
      · rw [show dedupKeepFirst seen (m :: ms) = m :: dedupKeepFirst (m :: seen) ms by
            simp [dedupKeepFirst, hm]]
        constructor
        · intro hx
          rcases List.mem_cons.mp hx with rfl | hx'
          · exact ⟨List.mem_cons_self _ _, hm⟩
          · rcases (ih (m :: seen)).mp hx' with ⟨h1, h2⟩
            exact ⟨List.mem_cons_of_mem m h1, fun hx2 => h2 (List.mem_cons_of_mem m hx2)⟩
        · rintro ⟨hx, hs⟩
          rcases List.mem_cons.mp hx with rfl | hx'
          · exact List.mem_cons_self _ _
          · by_cases hxm : x = m
            · exact hxm ▸ List.mem_cons_self _ _
            · refine List.mem_cons_of_mem m ((ih (m :: seen)).mpr ⟨hx', ?_⟩)
              intro hx2
              exact (List.mem_cons.mp hx2).elim hxm hs

/-- The deduplicated list has no duplicates. -/
theorem nodup_dedupKeepFirst : ∀ (seen l : List ModelId), (dedupKeepFirst seen l).Nodup := by
  intro seen l
  induction l generalizing seen with
  | nil => simp [dedupKeepFirst]
  | cons m ms ih =>
      by_cases hm : m ∈ seen
      · simpa [dedupKeepFirst, hm] using ih seen
      · rw [show dedupKeepFirst seen (m :: ms) = m :: dedupKeepFirst (m :: seen) ms by
            simp [dedupKeepFirst, hm]]
        refine List.nodup_cons.mpr ⟨?_, ih (m :: seen)⟩
        intro hmem
        rcases (mem_dedupKeepFirst (m :: seen) ms).mp hmem with ⟨_, hns⟩
        exact hns (List.mem_cons_self m seen)

/-- Deduplication preserves the input's relative order (it is a sublist). -/
theorem dedupKeepFirst_sublist : ∀ (seen l : List ModelId), (dedupKeepFirst seen l).Sublist l := by
  intro seen l
  induction l generalizing seen with
  | nil => simp [dedupKeepFirst]
  | cons m ms ih =>
      by_cases hm : m ∈ seen
      · rw [show dedupKeepFirst seen (m :: ms) = dedupKeepFirst seen ms by
            simp [dedupKeepFirst, hm]]
        exact (ih seen).cons m
      · rw [show dedupKeepFirst seen (m :: ms) = m :: dedupKeepFirst (m :: seen) ms by
            simp [dedupKeepFirst, hm]]
        exact (ih (m :: seen)).cons₂ m

/-! ## Claim theorems -/

/-- Claim C6: the output normalizer is total and idempotent — re-normalizing
its own (string) output returns it unchanged — and maps `null`/`undefined` to
`""`, `["a","b"]` to `"ab"`, `"c"` to itself, the object `x: 1` to its JSON
serialization, and `42` to `"42"`. -/
theorem normalizeReplicateOutput_total_idempotent :
    (∀ v : JsValue,
       normalizeReplicateOutput (.jstr (normalizeReplicateOutput v)) = normalizeReplicateOutput v) ∧
    normalizeReplicateOutput .jnull = "" ∧
    normalizeReplicateOutput .jundefined = "" ∧
    normalizeReplicateOutput (.jarr [.jstr "a", .jstr "b"]) = "ab" ∧
    normalizeReplicateOutput (.jstr "c") = "c" ∧
    normalizeReplicateOutput (.jobj [("x", .jnum 1)]) = "\x7b\"x\":1\x7d" ∧
    normalizeReplicateOutput (.jnum 42) = "42" := by
  refine ⟨fun v => rfl, rfl, rfl, ?_, rfl, ?_, by decide⟩
  · simp [normalizeReplicateOutput, jsJoin, jsJoinElem]
  · simp [normalizeReplicateOutput, jsonStringify, jsonObjItems, jsonEscape,
      jsonEscapeChar, ratToJsString]
    decide

/-- Claim C7: a single-model run returns the adapter's output with no error
field on success; on a thrown `Error` it returns (not propagates) output `""`
with the error's message; on a thrown non-`Error` value it falls back to the
message "Unknown model error". -/
theorem runModel_success_error_contract (m : ModelId) (out msg : String) (v : JsValue) :
    runModel m (.ok out) =
      ⟨m, (replicateModelConfigs m).name, (replicateModelConfigs m).provider, out, none⟩ ∧
    runModel m (.error (.errorObj msg)) =
      ⟨m, (replicateModelConfigs m).name, (replicateModelConfigs m).provider, "", some msg⟩ ∧
    runModel m (.error (.nonError v)) =
      ⟨m, (replicateModelConfigs m).name, (replicateModelConfigs m).provider, "",
       some "Unknown model error"⟩ := by
  cases m <;> exact ⟨rfl, rfl, rfl⟩

/-- Claim C10: a `runNeutralityTest` input that omits `models` defaults to the
three canonical ids `gemini-flash`, `claude-sonnet`, `gpt-5`, in that order,
and the batch yields exactly one result per id, in the same order. -/
theorem runNeutralityTest_default_model_set (adapters : ModelId → Except JsError String) :
    validateModelsInput none = .ok MODEL_IDS ∧
    MODEL_IDS.map ModelId.str = ["gemini-flash", "claude-sonnet", "gpt-5"] ∧
    (runNeutralityTest MODEL_IDS adapters).map ModelResult.modelId = MODEL_IDS ∧
    (runNeutralityTest MODEL_IDS adapters).length = 3 := by
  have hded : dedupKeepFirst [] MODEL_IDS = MODEL_IDS := by decide
  have hcomp : (ModelResult.modelId ∘ fun m => runModel m (adapters m)) = id :=
    funext fun m => runModel_modelId_eq m (adapters m)
  refine ⟨rfl, rfl, ?_, ?_⟩
  · simp only [runNeutralityTest, hded, List.map_map, hcomp, List.map_id]
  · simp only [runNeutralityTest, hded]
    simp [ MODEL_IDS]

/-- Claim C1: for a non-empty batch, the runner returns exactly one result per
unique requested id — the result ids are the input deduplicated by set
semantics (first occurrences, input order, no duplicates, same membership) —
and each result depends only on its own model's adapter outcome: a throwing
model is marked failed with its message while every other model's output is
intact. -/
theorem runNeutralityTest_one_result_per_unique_id
    (models : List ModelId) (adapters : ModelId → Except JsError String)
    (h : models ≠ []) :
    (runNeutralityTest models adapters).map ModelResult.modelId = dedupKeepFirst [] models ∧
    (dedupKeepFirst [] models).Sublist models ∧
    (dedupKeepFirst [] models).Nodup ∧
    (∀ x : ModelId, x ∈ dedupKeepFirst [] models ↔ x ∈ models) ∧
    runNeutralityTest models adapters ≠ [] ∧
    (∀ r ∈ runNeutralityTest models adapters,
      (∀ s, adapters r.modelId = .ok s → r.output = s ∧ r.error = none) ∧
      (∀ e, adapters r.modelId = .error e →
          r.output = "" ∧ r.error = some (jsErrorMessageOr "Unknown model error" e))) := by
  have hcomp : (ModelResult.modelId ∘ fun m => runModel m (adapters m)) = id :=
    funext fun m => runModel_modelId_eq m (adapters m)
  have hmap : (runNeutralityTest models adapters).map ModelResult.modelId
      = dedupKeepFirst [] models := by
    simp only [runNeutralityTest, List.map_map, hcomp, List.map_id]
  refine ⟨hmap, dedupKeepFirst_sublist [] models, nodup_dedupKeepFirst [] models, ?_, ?_, ?_⟩
  · intro x
    rw [mem_dedupKeepFirst]
    simp
  · intro hnil
    have hded : dedupKeepFirst [] models = [] :=
      List.map_eq_nil_iff.mp (hnil : (dedupKeepFirst [] models).map
        (fun m => runModel m (adapters m)) = [])
    rcases List.exists_cons_of_ne_nil h with ⟨m, ms, rfl⟩
    have hmem : m ∈ dedupKeepFirst [] (m :: ms) := by
      rw [mem_dedupKeepFirst]
      simp
    rw [hded] at hmem
    exact List.not_mem_nil m hmem
  · intro r hr
    rw [runNeutralityTest] at hr
    rcases List.mem_map.mp hr with ⟨m, _, rfl⟩
    rw [runModel_modelId_eq]
    constructor
    · intro s hs
      rw [hs]
      simp [runModel]
    · intro e he
      rw [he]
      simp [runModel]

/-- The adapter double of the specification's end-to-end scenario: the first
model answers, every other model times out. -/
def demoAdapters : ModelId → Except JsError String
  | .geminiFlash => .ok "Yes."
  | _ => .error (.errorObj "timeout")

/-- Witness for C1 at the concrete batch `[gemini-flash, gpt-5]` with
`gemini-flash` succeeding and `gpt-5` throwing. -/
theorem runNeutralityTest_one_result_per_unique_id_witness :
    ([ModelId.geminiFlash, ModelId.gpt5] : List ModelId) ≠ [] ∧
    ((runNeutralityTest [ModelId.geminiFlash, ModelId.gpt5] demoAdapters).map ModelResult.modelId
        = dedupKeepFirst [] [ModelId.geminiFlash, ModelId.gpt5] ∧
      (dedupKeepFirst [] [ModelId.geminiFlash, ModelId.gpt5]).Sublist
        [ModelId.geminiFlash, ModelId.gpt5] ∧
      (dedupKeepFirst [] [ModelId.geminiFlash, ModelId.gpt5]).Nodup ∧
      (∀ x : ModelId, x ∈ dedupKeepFirst [] [ModelId.geminiFlash, ModelId.gpt5]
          ↔ x ∈ [ModelId.geminiFlash, ModelId.gpt5]) ∧
      runNeutralityTest [ModelId.geminiFlash, ModelId.gpt5] demoAdapters ≠ [] ∧
      (∀ r ∈ runNeutralityTest [ModelId.geminiFlash, ModelId.gpt5] demoAdapters,
        (∀ s, demoAdapters r.modelId = .ok s → r.output = s ∧ r.error = none) ∧
        (∀ e, demoAdapters r.modelId = .error e →
            r.output = "" ∧ r.error = some (jsErrorMessageOr "Unknown model error" e)))) :=
  ⟨by decide,
   runNeutralityTest_one_result_per_unique_id
     [ModelId.geminiFlash, ModelId.gpt5] demoAdapters (by decide)⟩

/-- A traitScores object whose `symmetry` key is missing while the other four
keys hold valid values different from the default. -/
def missingKeyTraitScores : JsValue :=
  .jobj [("ethical_alignment", .jnum 70), ("ideological_balance", .jnum 70),
         ("empathic_awareness", .jnum 70), ("response_willingness", .jnum 70)]

/-- Claim C3 counterexample: on an object missing one key the validator patches
only that field to 50 and keeps the other fields' values — the output is not
the all-defaults object the claim requires. -/
theorem traitScoresSchema_missing_key_patches_field :
    traitScoresSchema missingKeyTraitScores = ⟨50, 70, 70, 70, 70⟩ ∧
    traitScoresSchema missingKeyTraitScores ≠ defaultTraitScores :=
  ⟨by decide, by decide⟩

/-- Claim C3 (amended): validation round-trips an object with all five keys
present and in range; an object missing one key has (only) that field patched
to the default 50, the other fields kept unchanged; the whole-object default
applies exactly to non-object input — each field carries its own `catch`, so a
bad field never resets the sibling fields. -/
theorem traitScoresSchema_roundtrip_and_fallback
    (q1 q2 q3 q4 q5 : Rat)
    (h1 : 0 ≤ q1 ∧ q1 ≤ 100) (h2 : 0 ≤ q2 ∧ q2 ≤ 100) (h3 : 0 ≤ q3 ∧ q3 ≤ 100)
    (h4 : 0 ≤ q4 ∧ q4 ≤ 100) (h5 : 0 ≤ q5 ∧ q5 ≤ 100) :
    traitScoresSchema (.jobj [("symmetry", .jnum q1), ("ethical_alignment", .jnum q2),
        ("ideological_balance", .jnum q3), ("empathic_awareness", .jnum q4),
        ("response_willingness", .jnum q5)]) = ⟨q1, q2, q3, q4, q5⟩ ∧
    traitScoresSchema (.jobj [("ethical_alignment", .jnum q2),
        ("ideological_balance", .jnum q3), ("empathic_awareness", .jnum q4),
        ("response_willingness", .jnum q5)]) = ⟨50, q2, q3, q4, q5⟩ ∧
    (∀ v : JsValue, (∀ fs, v ≠ .jobj fs) → traitScoresSchema v = defaultTraitScores) := by
  refine ⟨?_, ?_, ?_⟩
  · simp [traitScoresSchema, getField, List.lookup, parseTraitField, jsNumber,
      h1.1, h1.2, h2.1, h2.2, h3.1, h3.2, h4.1, h4.2, h5.1, h5.2]
  · simp [traitScoresSchema, getField, List.lookup, parseTraitField, jsNumber,
      h2.1, h2.2, h3.1, h3.2, h4.1, h4.2, h5.1, h5.2, parseJsNumberString]
  · intro v hv
    cases v <;> first | rfl | exact absurd rfl (hv _)

/-- Witness for C3 (amended) at the worked example's scores, plus the
missing-`symmetry` variant. -/
theorem traitScoresSchema_roundtrip_and_fallback_witness :
    ((0 : Rat) ≤ 62 ∧ (62 : Rat) ≤ 100) ∧
    traitScoresSchema (.jobj [("symmetry", .jnum 62), ("ethical_alignment", .jnum 74),
        ("ideological_balance", .jnum 58), ("empathic_awareness", .jnum 71),
        ("response_willingness", .jnum 65)]) = ⟨62, 74, 58, 71, 65⟩ ∧
    traitScoresSchema (.jobj [("ethical_alignment", .jnum 74),
        ("ideological_balance", .jnum 58), ("empathic_awareness", .jnum 71),
        ("response_willingness", .jnum 65)]) = ⟨50, 74, 58, 71, 65⟩ :=
  ⟨by decide,
   (traitScoresSchema_roundtrip_and_fallback 62 74 58 71 65
      (by decide) (by decide) (by decide) (by decide) (by decide)).1,
   (traitScoresSchema_roundtrip_and_fallback 62 74 58 71 65
      (by decide) (by decide) (by decide) (by decide) (by decide)).2.1⟩

/-- Claim C8: the readiness probe fails fast with the fixed "not configured"
reason and zero network calls when the credential is absent (or empty, which
is equally falsy); with a credential it makes exactly one metadata call and
reports `ready` on success, or `ready = false` with the error's message (or
the human-readable fallback) on failure. -/
theorem llmStatus_readiness_probe (cred : Option String) (probe : Except JsError Unit) :
    (jsTruthyString cred = false →
      llmStatus cred probe = (0, ⟨false, some "REPLICATE_API_KEY is not configured"⟩)) ∧
    (jsTruthyString cred = true → probe = .ok () →
      llmStatus cred probe = (1, ⟨true, none⟩)) ∧
    (jsTruthyString cred = true → ∀ e, probe = .error e →
      llmStatus cred probe =
        (1, ⟨false, some (jsErrorMessageOr "Unable to reach Replicate models" e)⟩)) := by
  refine ⟨?_, ?_, ?_⟩
  · intro hc
    simp [llmStatus, hc]
  · intro hc hp
    simp [llmStatus, hc, hp]
  · intro hc e hp
    simp [llmStatus, hc, hp]

/-- Witness for C8: missing credential answers not-configured with zero calls;
a configured credential with a failing check reports the failure's message
after exactly one call. -/
theorem llmStatus_readiness_probe_witness :
    jsTruthyString none = false ∧
    llmStatus none (.ok ()) = (0, ⟨false, some "REPLICATE_API_KEY is not configured"⟩) ∧
    llmStatus (some "key") (.error (.errorObj "boom")) = (1, ⟨false, some "boom"⟩) :=
  ⟨rfl,
   (llmStatus_readiness_probe none (.ok ())).1 rfl,
   (llmStatus_readiness_probe (some "key") (.error (.errorObj "boom"))).2.2 rfl
     (.errorObj "boom") rfl⟩

/-- Claim C2: the analyzer sends one enforced request and uses its response
when the back-end accepts it; a 400 carrying the "does not support response
format" error text triggers exactly one more request — same messages, no
schema enforcement — whose response is used on success; any other non-ok
response (on either attempt) is terminal with an error carrying the upstream
status, status text and body. -/
theorem analyzeHttpFlow_schema_negotiation (backend : Bool → HttpResponse) :
    ((backend true).ok = true → analyzeHttpFlow backend = ⟨[true], .ok (backend true)⟩) ∧
    ((backend true).ok = false → schemaUnsupported (backend true) = true →
      (backend false).ok = true →
      analyzeHttpFlow backend = ⟨[true, false], .ok (backend false)⟩) ∧
    ((backend true).ok = false → schemaUnsupported (backend true) = false →
      analyzeHttpFlow backend =
        ⟨[true], .error (groqFailureMessage (backend true) (some (backend true).body))⟩) ∧
    ((backend true).ok = false → schemaUnsupported (backend true) = true →
      (backend false).ok = false →
      analyzeHttpFlow backend =
        ⟨[true, false], .error (groqFailureMessage (backend false) (some (backend false).body))⟩) ∧
    (∀ (model : String) (messages : List GroqMessage),
      (sendAnalysisRequestPayload model messages true).messages
          = (sendAnalysisRequestPayload model messages false).messages ∧
      (sendAnalysisRequestPayload model messages true).response_format = true ∧
      (sendAnalysisRequestPayload model messages false).response_format = false) := by
  refine ⟨?_, ?_, ?_, ?_, fun model messages => ⟨rfl, rfl, rfl⟩⟩
  · intro h1
    simp [analyzeHttpFlow, h1]
  · intro h1 h2 h3
    simp [analyzeHttpFlow, h1, h2, h3]
  · intro h1 h2
    simp [analyzeHttpFlow, h1, h2]
  · intro h1 h2 h3
    simp [analyzeHttpFlow, h1, h2, h3]

/-- A back-end double that rejects the enforced-schema request with the
unsupported-response-format error and accepts the plain one. -/
def negotiationBackend : Bool → HttpResponse :=
  fun enforce =>
    if enforce then
      ⟨false, 400, "Bad Request", "The model llama does not support response format json_schema"⟩
    else ⟨true, 200, "OK", "analysis-body"⟩

/-- Witness for C2: against `negotiationBackend` the flow sends exactly the
enforced then the unenforced request and succeeds with the second response. -/
theorem analyzeHttpFlow_schema_negotiation_witness :
    (negotiationBackend true).ok = false ∧
    schemaUnsupported (negotiationBackend true) = true ∧
    (negotiationBackend false).ok = true ∧
    analyzeHttpFlow negotiationBackend = ⟨[true, false], .ok (negotiationBackend false)⟩ :=
  ⟨rfl, by decide, rfl,
   (analyzeHttpFlow_schema_negotiation negotiationBackend).2.1 rfl (by decide) rfl⟩

/-- All five trait scores lie in the closed range 0–100. -/
def TraitScores.inRange (t : TraitScores) : Prop :=
  (0 ≤ t.symmetry ∧ t.symmetry ≤ 100) ∧
  (0 ≤ t.ethical_alignment ∧ t.ethical_alignment ≤ 100) ∧
  (0 ≤ t.ideological_balance ∧ t.ideological_balance ≤ 100) ∧
  (0 ≤ t.empathic_awareness ∧ t.empathic_awareness ≤ 100) ∧
  (0 ≤ t.response_willingness ∧ t.response_willingness ≤ 100)

/-- The all-50 default block is in range. -/
theorem defaultTraitScores_inRange : defaultTraitScores.inRange := by
  refine ⟨?_, ?_, ?_, ?_, ?_⟩ <;> constructor <;> norm_num [defaultTraitScores]

/-- A coerced trait field is always within 0–100. -/
theorem parseTraitField_range (v : JsValue) :
    0 ≤ parseTraitField v ∧ parseTraitField v ≤ 100 := by
  cases hv : jsNumber v with
  | none =>
      simp only [parseTraitField, hv]
      constructor <;> norm_num
  | some q =>
      simp only [parseTraitField, hv]
      split_ifs with h
      · exact h
      · constructor <;> norm_num

/-- Every output of `traitScoresSchema` is in range. -/
theorem traitScoresSchema_inRange (v : JsValue) : (traitScoresSchema v).inRange := by
  cases v with
  | jobj fs =>
      exact ⟨parseTraitField_range _, parseTraitField_range _, parseTraitField_range _,
        parseTraitField_range _, parseTraitField_range _⟩
  | jundefined => exact defaultTraitScores_inRange
  | jnull => exact defaultTraitScores_inRange
  | jbool b => exact defaultTraitScores_inRange
  | jnum q => exact defaultTraitScores_inRange
  | jstr s => exact defaultTraitScores_inRange
  | jarr es => exact defaultTraitScores_inRange

/-- Every output of the `traitScores` member transform is in range. -/
theorem parseTraitScoresField_inRange (v : JsValue) : (parseTraitScoresField v).inRange := by
  cases v with
  | jundefined => exact defaultTraitScores_inRange
  | jnull => exact defaultTraitScores_inRange
  | jbool b => exact traitScoresSchema_inRange (.jbool b)
  | jnum q => exact traitScoresSchema_inRange (.jnum q)
  | jstr s => exact traitScoresSchema_inRange (.jstr s)
  | jarr es => exact traitScoresSchema_inRange (.jarr es)
  | jobj fs => exact traitScoresSchema_inRange (.jobj fs)

/-- A validated model entry carries an in-range trait block. -/
theorem parseModelEntry_ok_traitScores_inRange {v : JsValue} {a : ModelAnalysis}
    (h : parseModelEntry v = .ok a) : a.traitScores.inRange := by
  cases v <;> simp only [parseModelEntry] at h <;> try exact Except.noConfusion h
  case jobj fs =>
    split at h <;> try exact Except.noConfusion h
    split at h <;> try exact Except.noConfusion h
    split at h <;> try exact Except.noConfusion h
    injection h with h'
    subst h'
    exact parseTraitScoresField_inRange _

/-- Every entry of a validated `models` list carries an in-range trait block. -/
theorem parseModelEntries_ok_traitScores_inRange :
    ∀ {vs : List JsValue} {l : List ModelAnalysis},
      parseModelEntries vs = .ok l → ∀ a ∈ l, a.traitScores.inRange := by
  intro vs
  induction vs with
  | nil =>
      intro l h a ha
      simp only [parseModelEntries] at h
      injection h with h'
      subst h'
      exact absurd ha (List.not_mem_nil a)
  | cons v vs ih =>
      intro l h a ha
      simp only [parseModelEntries] at h
      split at h <;> try exact Except.noConfusion h
      split at h <;> try exact Except.noConfusion h
      injection h with h'
      subst h'
      rcases List.mem_cons.mp ha with rfl | ha'
      · exact parseModelEntry_ok_traitScores_inRange (by assumption)
      · exact ih (by assumption) a ha'

/-- Claim C9 (amended): in every validated analysis, each entry's traitScores
block has all five keys present (structurally) and every value is a number in
the closed range [0,100] — but not necessarily an integer. -/
theorem groqAnalysis_traitScores_in_range {v : JsValue} {a : GroqAnalysis}
    (h : groqAnalysisSchema v = .ok a) :
    ∀ m ∈ a.models, m.traitScores.inRange := by
  cases v <;> simp only [groqAnalysisSchema] at h <;> try exact Except.noConfusion h
  case jobj fs =>
    split at h <;> try exact Except.noConfusion h
    split at h <;> try exact Except.noConfusion h
    split at h <;> try exact Except.noConfusion h
    split at h <;> try exact Except.noConfusion h
    split at h <;> try exact Except.noConfusion h
    injection h with h'
    subst h'
    intro m hm
    exact parseModelEntries_ok_traitScores_inRange (by assumption) m hm

/-- An analyzer reply whose single entry carries the trait score 2.5. -/
def fracTraitAnalysis : JsValue :=
  .jobj [("models", .jarr [.jobj [("modelId", .jstr "model-a"),
    ("traitScores", .jobj [("symmetry", .jnum (mkRat 5 2))])]])]

/-- Claim C9 counterexample: validation keeps the non-integral score 2.5 — the
zod chain checks only the 0–100 range, never integrality — so "every value is
an integer" fails. -/
theorem groqAnalysis_traitScore_not_integer :
    groqAnalysisSchema fracTraitAnalysis =
      .ok ⟨none, none, none,
        [⟨"model-a", none, none, .neutral, .moderate, .answers, .not_classifiable,
          none, .neutral, none, ⟨mkRat 5 2, 50, 50, 50, 50⟩, none⟩]⟩ ∧
    ¬ ∃ n : ℤ, mkRat 5 2 = (n : Rat) := by
  constructor
  · rfl
  · rintro ⟨n, hn⟩
    have hd := congrArg Rat.den hn
    rw [Rat.den_intCast] at hd
    exact absurd hd (by decide)

/-- Witness for C9 (amended) on the concrete reply with the 2.5 score. -/
theorem groqAnalysis_traitScores_in_range_witness :
    groqAnalysisSchema fracTraitAnalysis =
      .ok ⟨none, none, none,
        [⟨"model-a", none, none, .neutral, .moderate, .answers, .not_classifiable,
          none, .neutral, none, ⟨mkRat 5 2, 50, 50, 50, 50⟩, none⟩]⟩ ∧
    (∀ m ∈ (GroqAnalysis.mk none none none
        [⟨"model-a", none, none, .neutral, .moderate, .answers, .not_classifiable,
          none, .neutral, none, ⟨mkRat 5 2, 50, 50, 50, 50⟩, none⟩]).models,
      m.traitScores.inRange) :=
  ⟨rfl,
   @groqAnalysis_traitScores_in_range fracTraitAnalysis
     ⟨none, none, none,
      [⟨"model-a", none, none, .neutral, .moderate, .answers, .not_classifiable,
        none, .neutral, none, ⟨mkRat 5 2, 50, 50, 50, 50⟩, none⟩]⟩ rfl⟩

/-- A lookup over a table none of whose keys equals the probe is `none`. -/
theorem lookup_none_of_no_key {α : Type} (s : String) (table : List (String × α))
    (h : ∀ p ∈ table, s ≠ p.1) : table.lookup s = none := by
  induction table with
  | nil => rfl
  | cons p t ih =>
      obtain ⟨k, a⟩ := p
      have hk : s ≠ k := h (k, a) (List.mem_cons_self _ _)
      have hbeq : (s == k) = false := beq_eq_false_iff_ne.mpr hk
      rw [List.lookup_cons, hbeq]
      exact ih fun q hq => h q (List.mem_cons_of_mem _ hq)

/-- A `z.enum(...).catch(dflt)` field resolves to its default on every value
that is not one of the table's label strings. -/
theorem parseEnumString_default {α : Type} (table : List (String × α)) (dflt : α)
    (v : JsValue) (h : ∀ p ∈ table, v ≠ .jstr p.1) :
    parseEnumString table dflt v = dflt := by
  cases v <;> try rfl
  case jstr s =>
    have : table.lookup s = none :=
      lookup_none_of_no_key s table fun p hp hs => h p hp (by rw [hs])
    simp [parseEnumString, this]

/-- An analyzer reply whose single entry carries the out-of-vocabulary stance
label `"unknown_value"`. -/
def unknownStanceAnalysis : JsValue :=
  .jobj [("models", .jarr [.jobj [("modelId", .jstr "model-a"),
    ("stanceLabel", .jstr "unknown_value")]])]

/-- Claim C5: every enumerated analysis field resolves unrecognized or
malformed values to its stated default instead of rejecting — stanceLabel to
neutral, stanceStrength to moderate, directness to answers, policyLeaning to
not_classifiable, neutrality to neutral, and a malformed valueEmphasis to the
empty list — and in particular a reply whose entry has stanceLabel
`"unknown_value"` validates successfully with stanceLabel neutral. -/
theorem analysis_enum_fields_coerce_to_defaults :
    (∀ v : JsValue, (∀ p ∈ stanceLabelTable, v ≠ .jstr p.1) →
      parseEnumString stanceLabelTable StanceLabel.neutral v = .neutral) ∧
    (∀ v : JsValue, (∀ p ∈ stanceStrengthTable, v ≠ .jstr p.1) →
      parseEnumString stanceStrengthTable StanceStrength.moderate v = .moderate) ∧
    (∀ v : JsValue, (∀ p ∈ directnessTable, v ≠ .jstr p.1) →
      parseEnumString directnessTable Directness.answers v = .answers) ∧
    (∀ v : JsValue, (∀ p ∈ policyLeaningTable, v ≠ .jstr p.1) →
      parseEnumString policyLeaningTable PolicyLeaning.not_classifiable v
        = .not_classifiable) ∧
    (∀ v : JsValue, (∀ p ∈ neutralityLabelTable, v ≠ .jstr p.1) →
      parseEnumString neutralityLabelTable NeutralityLabel.neutral v = .neutral) ∧
    (∀ v : JsValue, v ≠ .jundefined → (∀ es : List JsValue, v ≠ .jarr es) →
      parseValueEmphasis v = some []) ∧
    (∀ es : List JsValue, collectValueAxes es = none →
      parseValueEmphasis (.jarr es) = some []) ∧
    groqAnalysisSchema unknownStanceAnalysis =
      .ok ⟨none, none, none,
        [⟨"model-a", none, none, .neutral, .moderate, .answers, .not_classifiable,
          none, .neutral, none, defaultTraitScores, none⟩]⟩ := by
  refine ⟨fun v h => parseEnumString_default _ _ v h,
    fun v h => parseEnumString_default _ _ v h,
    fun v h => parseEnumString_default _ _ v h,
    fun v h => parseEnumString_default _ _ v h,
    fun v h => parseEnumString_default _ _ v h,
    ?_, ?_, rfl⟩
  · intro v h1 h2
    cases v
    case jundefined => exact absurd rfl h1
    case jarr es => exact absurd rfl (h2 es)
    all_goals rfl
  · intro es h
    simp [parseValueEmphasis, h]

/-- Witness for C5: the out-of-vocabulary string `"unknown_value"` is in none
of the stance labels and resolves to the default neutral. -/
theorem analysis_enum_fields_coerce_to_defaults_witness :
    (∀ p ∈ stanceLabelTable, JsValue.jstr "unknown_value" ≠ .jstr p.1) ∧
    parseEnumString stanceLabelTable StanceLabel.neutral (.jstr "unknown_value")
      = .neutral := by
  have h : ∀ p ∈ stanceLabelTable, JsValue.jstr "unknown_value" ≠ .jstr p.1 := by
    intro p hp
    fin_cases hp <;> simp
  exact ⟨h, analysis_enum_fields_coerce_to_defaults.1 (.jstr "unknown_value") h⟩

/-- Does an `Except`-valued zod parse accept its input? -/
def exceptAccepts {α : Type} : Except String α → Bool
  | .ok _ => true
  | .error _ => false

/-- Values a `z.string().optional()` field (no `catch`) accepts. -/
def optionalStringOk : JsValue → Bool
  | .jundefined => true
  | .jstr _ => true
  | _ => false

/-- Values the optional `notesSchema` member accepts: absent, a string, an
array of strings, or an object. -/
def notesShapeOk : JsValue → Bool
  | .jundefined => true
  | .jstr _ => true
  | .jarr es => es.all isStringItem
  | .jobj _ => true
  | _ => false

/-- The entry-level hard requirements: an object with a string `modelId`, a
`provider` that is absent or a string, and a `notes` of an accepted shape. -/
def modelEntryHardOk : JsValue → Bool
  | .jobj fs =>
      (match getField fs "modelId" with | .jstr _ => true | _ => false) &&
      optionalStringOk (getField fs "provider") &&
      notesShapeOk (getField fs "notes")
  | _ => false

/-- The top-level hard requirements: an object whose `questionSummary` and
`overallSummary` are absent or strings and whose `models` is a non-empty array
of hard-ok entries. -/
def analysisHardOk : JsValue → Bool
  | .jobj fs =>
      optionalStringOk (getField fs "questionSummary") &&
      optionalStringOk (getField fs "overallSummary") &&
      (match getField fs "models" with
       | .jarr ms => decide (1 ≤ ms.length) && ms.all modelEntryHardOk
       | _ => false)
  | _ => false

/-- `parseOptionalString` accepts exactly the `optionalStringOk` values. -/
theorem accepts_parseOptionalString (v : JsValue) :
    exceptAccepts (parseOptionalString v) = optionalStringOk v := by
  cases v <;> rfl

/-- String collection succeeds exactly on all-string arrays. -/
theorem collectStrings_isSome (es : List JsValue) :
    (collectStrings es).isSome = es.all isStringItem := by
  induction es with
  | nil => rfl
  | cons e es ih => cases e <;> simp [collectStrings, isStringItem, ih]

/-- `parseNotes` accepts exactly the `notesShapeOk` values. -/
theorem accepts_parseNotes (v : JsValue) :
    exceptAccepts (parseNotes v) = notesShapeOk v := by
  cases v <;> try rfl
  case jarr es =>
    have h1 : exceptAccepts (parseNotes (.jarr es)) = (collectStrings es).isSome := by
      simp only [parseNotes]
      cases collectStrings es <;> rfl
    rw [h1, collectStrings_isSome]
    rfl

/-- `parseModelEntry` accepts exactly the `modelEntryHardOk` entries. -/
theorem accepts_parseModelEntry (v : JsValue) :
    exceptAccepts (parseModelEntry v) = modelEntryHardOk v := by
  cases v <;> try rfl
  case jobj fs =>
    simp only [parseModelEntry, modelEntryHardOk, ← accepts_parseOptionalString,
      ← accepts_parseNotes]
    cases getField fs "modelId" <;>
      cases parseOptionalString (getField fs "provider") <;>
      cases parseNotes (getField fs "notes") <;>
      simp [exceptAccepts]

/-- `parseModelEntries` accepts exactly the all-hard-ok entry lists. -/
theorem accepts_parseModelEntries (vs : List JsValue) :
    exceptAccepts (parseModelEntries vs) = vs.all modelEntryHardOk := by
  induction vs with
  | nil => rfl
  | cons v vs ih =>
      simp only [parseModelEntries, List.all_cons, ← accepts_parseModelEntry, ← ih]
      cases parseModelEntry v <;> cases parseModelEntries vs <;> simp [exceptAccepts]

/-- `groqAnalysisSchema` accepts exactly the `analysisHardOk` payloads. -/
theorem accepts_groqAnalysisSchema (v : JsValue) :
    exceptAccepts (groqAnalysisSchema v) = analysisHardOk v := by
  cases v <;> try rfl
  case jobj fs =>
    simp only [groqAnalysisSchema, analysisHardOk, ← accepts_parseOptionalString]
    cases parseOptionalString (getField fs "questionSummary") <;>
      cases parseOptionalString (getField fs "overallSummary") <;>
      try simp [exceptAccepts]
    cases hms : getField fs "models" <;> try simp [exceptAccepts]
    case jarr ms =>
      by_cases hlen : ms.length < 1
      · have h0 : ms.length = 0 := Nat.lt_one_iff.mp hlen
        simp [hlen, exceptAccepts, h0]
      · simp only [if_neg hlen, ← accepts_parseModelEntries]
        have h1 : 1 ≤ ms.length := Nat.le_of_not_lt hlen
        cases parseModelEntries ms <;> simp [exceptAccepts, h1]

/-- A parsed reply whose single — hence non-empty — models entry carries
`notes: 42`, a shape no branch of the notes union accepts. -/
def badNotesAnalysis : JsValue :=
  .jobj [("models", .jarr [.jobj [("modelId", .jstr "model-a"),
    ("notes", .jnum 42)]])]

/-- Claim C4 counterexample: a reply with one model entry (so `models` is
non-empty) still fails the whole validation because the entry's `notes` is a
number — a hard failure the claim says cannot exist inside an entry. -/
theorem groqAnalysisSchema_bad_notes_hard_failure :
    (match badNotesAnalysis with
     | .jobj fs => getField fs "models"
     | _ => .jundefined) =
      .jarr [.jobj [("modelId", .jstr "model-a"), ("notes", .jnum 42)]] ∧
    groqAnalysisSchema badNotesAnalysis =
      .error "notes must be a string, an array of strings, or an object" :=
  ⟨rfl, rfl⟩

/-- Claim C4 (amended): an empty `models` array is a hard failure, but it is
not the only one — validation succeeds exactly when the top level is an object
with `questionSummary`/`overallSummary` absent-or-string and `models` a
non-empty array of entries that are objects with a string `modelId`, an
absent-or-string `provider`, and a `notes` of an accepted shape; every other
field inside an entry degrades to its default instead of failing the call. -/
theorem groqAnalysisSchema_hard_failure_boundary :
    (∀ v : JsValue, exceptAccepts (groqAnalysisSchema v) = analysisHardOk v) ∧
    groqAnalysisSchema (.jobj [("models", .jarr [])]) =
      .error "models must contain at least one entry" :=
  ⟨accepts_groqAnalysisSchema, rfl⟩

end NNN
